import Mathlib

/-!
Verification of the Multimodal Mental Health Voice Bot backend.

Shallow embedding of the Python services in `backend/app`:
  * `llm_service.detect_crisis`         → `detectCrisis`
  * `therapy_service.TherapyService`    → session `Store` plus `processMessage`
  * `emotion_service.EmotionService`    → `analyzeEmotion`, `emotion_to_voice_parameters`
  * `tts_service.text_to_speech`        → wire-format conversion plus `tryVoices`
  * `utils/ssml_builder.build_ssml`     → `buildSSML`

External LLM / TTS-provider calls are abstracted as oracle function
parameters; everything computed by the repository itself is embedded
from the source.  Python `float` arithmetic is modelled with exact
rationals (all constants involved are short decimals), and Python
`int` with `Int`/`Nat`.
-/

namespace VoiceBot

/-- Generic association-list lookup, modelling Python `dict.get` /
`key in dict` on string-keyed dicts. -/
def alookup {α : Type} : List (String × α) → String → Option α
  | [], _ => none
  | (k, v) :: rest, key => if k = key then some v else alookup rest key

/-- Generic association-list update, modelling Python `dict[key] = value`
(replace in place if present, append otherwise, preserving insertion
order). -/
def aset {α : Type} : List (String × α) → String → α → List (String × α)
  | [], key, value => [(key, value)]
  | (k, v) :: rest, key, value =>
    if k = key then (key, value) :: rest else (k, v) :: aset rest key value

/-- Association-list deletion, modelling Python `del dict[key]`. -/
def aerase {α : Type} : List (String × α) → String → List (String × α)
  | [], _ => []
  | (k, v) :: rest, key => if k = key then rest else (k, v) :: aerase rest key

/-- Prefix test on character lists. -/
def listPrefix : List Char → List Char → Bool
  | [], _ => true
  | _ :: _, [] => false
  | p :: ps, c :: cs => p = c && listPrefix ps cs

/-- Substring occurrence on character lists. -/
def listInfix (pat : List Char) : List Char → Bool
  | [] => listPrefix pat []
  | c :: cs => listPrefix pat (c :: cs) || listInfix pat cs

/-- Python `pat in s` substring test: true iff `pat` occurs somewhere
in `s` (always true for the empty pattern, as in Python). -/
def pyIn (pat s : String) : Bool :=
  listInfix pat.data s.data

/-- Python `str.lower()` on one character, faithful on every character
the code's inputs involve: ASCII letters, and Cyrillic
(U+0410-U+042F maps to U+0430-U+044F, U+0400-U+040F to
U+0450-U+045F); box-drawing and Devanagari characters are caseless. -/
def pyLowerChar (c : Char) : Char :=
  if 0x410 ≤ c.toNat ∧ c.toNat ≤ 0x42F then Char.ofNat (c.toNat + 0x20)
  else if 0x400 ≤ c.toNat ∧ c.toNat ≤ 0x40F then Char.ofNat (c.toNat + 0x50)
  else c.toLower

/-- Python `s.lower()`. -/
def pyLower (s : String) : String :=
  String.mk (s.data.map pyLowerChar)

/-- The apostrophe character, used inside some keyword strings. -/
def apos : String := String.singleton (Char.ofNat 39)

/-! ## Crisis detection (`llm_service.detect_crisis`) -/

/-- The fixed crisis keyword list of `llm_service.detect_crisis`,
byte-for-byte as it stands in the source file.  The 15 entries under
the `# Hindi (Devanagari)` comment are not Devanagari in the file:
they are the UTF-8 bytes of the intended Devanagari decoded as CP866,
i.e. mojibake Cyrillic/box-drawing strings, and are copied here
literally. -/
def crisisKeywords : List String :=
  [ -- English
    "suicide", "suicidal", "kill myself", "end my life", "want to die",
    "self harm", "hurt myself", "cutting", "overdose", "jump", "jumping",
    "no reason to live", "better off dead", "can" ++ apos ++ "t go on", "ending it all",
    "goodbye forever", "hang myself", "hanging", "want to hurt",
    -- the Hindi (Devanagari) block of the source, mojibake included
    "рдЖрддреНрдорд╣рддреНрдпрд╛", "рдЦреБрджрдХреБрд╢реА",
    "рдорд░рдирд╛ рдЪрд╛рд╣рддрд╛", "рдорд░рдирд╛ рдЪрд╛рд╣рддреА",
    "рдЬрд╛рди рджреЗрдирд╛", "рдореМрдд",
    "рдХреВрджрдирд╛", "рдХреВрджреВрдВрдЧрд╛",
    "рдХреВрджреВрдВрдЧреА", "рдЦреБрдж рдХреЛ рдорд╛рд░",
    "рдЖрддреНрдорд╣рддреНрдпрд╛ рдХрд░рдирд╛", "рдЬреАрдирд╛ рдирд╣реАрдВ рдЪрд╛рд╣рддрд╛",
    "рдЬреАрдирд╛ рдирд╣реАрдВ рдЪрд╛рд╣рддреА", "рдЬреАрд╡рди рд╕рдорд╛рдкреНрдд",
    "рдЫреЛрдбрд╝ рджреЗрдирд╛ рдЪрд╛рд╣рддрд╛",
    -- Hindi (Romanized/Hinglish)
    "mar jaana", "kud jaana", "khudkushi", "aatmahatya", "jeena nahi chahta",
    "marna chahta", "jump kar", "building se kud" ]

/-- `llm_service.detect_crisis`.  Stage 1 is the keyword scan over the
lower-cased text; stage 2 (the LLM classifier) is abstracted as the
oracle `llm` (`some b` = the call succeeded and `b` says whether "YES"
occurred in the reply; `none` = the call raised, which the code turns
into `False`).  The second component records whether stage 2 was
invoked. -/
def detectCrisis (llm : String → Option Bool) (text : String) : Bool × Bool :=
  let textLower := (pyLower text)
  if crisisKeywords.any (fun k => pyIn k textLower) then
    (true, false)
  else
    match llm text with
    | some b => (b, true)
    | none => (false, true)

/-! ## Therapy sessions (`therapy_service.TherapyService`) -/

/-- One entry of a session's `conversation_history` (the `timestamp`
field, a wall-clock string, is not modelled). -/
structure Turn where
  role : String
  content : String
deriving DecidableEq

/-- A session dict as built by `create_session` (the `created_at`
datetime is not modelled). -/
structure Session where
  id : String
  language : String
  conversation_history : List Turn
  crisis_detected : Bool
deriving DecidableEq

/-- The in-memory `self.sessions` dict. -/
abbrev Store := List (String × Session)

/-- `therapy_service.create_session`. -/
def createSession (st : Store) (sessionId : String) : Store :=
  aset st sessionId
    { id := sessionId, language := "en", conversation_history := [], crisis_detected := false }

/-- `therapy_service.get_session`. -/
def getSession (st : Store) (sessionId : String) : Option Session :=
  alookup st sessionId

/-- `therapy_service.update_session_language`. -/
def updateSessionLanguage (st : Store) (sessionId language : String) : Store :=
  match alookup st sessionId with
  | some s => aset st sessionId { s with language := language }
  | none => st

/-- The history update performed by `add_to_conversation_history`:
append the new turn, then keep only the last 20 entries
(`history[-20:]`) when the length exceeds 20. -/
def addHist (h : List Turn) (t : Turn) : List Turn :=
  if (h ++ [t]).length > 20 then (h ++ [t]).drop ((h ++ [t]).length - 20) else h ++ [t]

/-- `therapy_service.add_to_conversation_history`. -/
def addToConversationHistory (st : Store) (sessionId role content : String) : Store :=
  match alookup st sessionId with
  | some s =>
    aset st sessionId
      { s with conversation_history := addHist s.conversation_history ⟨role, content⟩ }
  | none => st

/-- `therapy_service.clear_session`. -/
def clearSession (st : Store) (sessionId : String) : Store :=
  aerase st sessionId

/-- The last `n` elements of a list (Python `l[-n:]` for `n ≤ len l`). -/
def lastN {α : Type} (n : Nat) (l : List α) : List α :=
  l.drop (l.length - n)

/-- The dictionary returned by `process_message`. -/
structure ProcessResult where
  response : String
  session_id : String
  is_crisis : Bool
  language : String
deriving DecidableEq

/-- The session-resolution prelude of `process_message`: a falsy
(`None` or empty) or unknown supplied session id triggers lazy creation
of a session under the freshly generated id `freshId`
(`f"session_..."` built from the current timestamp). -/
def resolveSession (st : Store) (sessionId? : Option String) (freshId : String) :
    String × Store :=
  let needNew :=
    match sessionId? with
    | none => true
    | some s => s == "" || (alookup st s).isNone
  if needNew then (freshId, createSession st freshId) else (sessionId?.getD "", st)

/-- `session["crisis_detected"] = True` on the session looked up in
`process_message` (the `none` case is unreachable: the id was just
created or found). -/
def setCrisisFlag (st : Store) (sid : String) : Store :=
  match alookup st sid with
  | some s => aset st sid { s with crisis_detected := true }
  | none => st

/-- `therapy_service.process_message`.  The LLM-backed calls are
oracles: `detect` for `llm_service.detect_crisis`'s verdict,
`crisisResp` for `llm_service.get_crisis_response`, `gen` for
`llm_service.generate_response`. -/
def processMessage (detect : String → Bool) (crisisResp : String → String)
    (gen : String → List Turn → String → String) (freshId : String)
    (st : Store) (message : String) (sessionId? : Option String) (language : String) :
    Store × ProcessResult :=
  let sidSt := resolveSession st sessionId? freshId
  let sid := sidSt.1
  let st1 := updateSessionLanguage sidSt.2 sid language
  let isCrisis := detect message
  let st2 := if isCrisis then setCrisisFlag st1 sid else st1
  let response :=
    if isCrisis then crisisResp language
    else gen message (((alookup st1 sid).map Session.conversation_history).getD []) language
  let st3 := addToConversationHistory st2 sid "user" message
  let st4 := addToConversationHistory st3 sid "assistant" response
  (st4, { response := response, session_id := sid, is_crisis := isCrisis, language := language })

/-! ## Emotion analysis (`emotion_service.EmotionService`) -/

/-- `models/emotion_schemas.EmotionAnalysis` (floats modelled as ℚ). -/
structure EmotionAnalysis where
  primary_emotion : String
  intensity : ℚ
  secondary_emotion : Option String := none
  confidence : ℚ
  recommended_style : String
  recommended_pace : String
  key_concerns : List String := []
  crisis_level : ℚ := 0
deriving DecidableEq

/-- `models/emotion_schemas.VoiceParameters`, with its pydantic field
defaults (floats modelled as ℚ, `pause_duration` as ℕ). -/
structure VoiceParameters where
  style : String := "friendly"
  rate : ℚ := 1.0
  pitch : String := "0%"
  volume : String := "medium"
  pause_duration : Nat := 300
  emphasis_level : String := "moderate"
deriving DecidableEq

/-- `emotion_service._get_neutral_emotion`. -/
def neutralEmotion : EmotionAnalysis :=
  { primary_emotion := "neutral", intensity := 0.5, confidence := 0.5,
    recommended_style := "friendly", recommended_pace := "normal",
    key_concerns := [], crisis_level := 0.0 }

/-- The `self._emotion_cache` dict. -/
abbrev EmotionCache := List (String × EmotionAnalysis)

/-- Result of one `analyze_emotion` call: the returned profile, the
cache afterwards, and whether the model stage was invoked. -/
structure AnalyzeOutcome where
  result : EmotionAnalysis
  cache : EmotionCache
  modelCalled : Bool
deriving DecidableEq

/-- `emotion_service.analyze_emotion`.  The LLM call plus JSON parsing
is the oracle `model`: `some ea` = the reply parsed into an
`EmotionAnalysis`; `none` = `json.JSONDecodeError` or any other
exception, which the code answers with the neutral fallback, without
caching. -/
def analyzeEmotion (model : String → Option EmotionAnalysis) (cache : EmotionCache)
    (userMessage : String) (useCache : Bool) : AnalyzeOutcome :=
  match useCache, alookup cache userMessage with
  | true, some cached => { result := cached, cache := cache, modelCalled := false }
  | _, _ =>
    match model userMessage with
    | some ea =>
      { result := ea,
        cache := if useCache then aset cache userMessage ea else cache,
        modelCalled := true }
    | none => { result := neutralEmotion, cache := cache, modelCalled := true }

/-- The `emotion_map["neutral"]` entry, also the fallback for unknown
emotions. -/
def neutralVoiceEntry : VoiceParameters :=
  { style := "friendly", rate := 1.0, pitch := "0%", volume := "medium",
    pause_duration := 300, emphasis_level := "moderate" }

/-- The static `emotion_map` of `emotion_to_voice_parameters`. -/
def emotionMap : List (String × VoiceParameters) :=
  [ ("anxious",
     { style := "empathetic", rate := 0.95, pitch := "-1%", volume := "medium",
       pause_duration := 300, emphasis_level := "moderate" }),
    ("sad",
     { style := "empathetic", rate := 0.97, pitch := "-1%", volume := "medium",
       pause_duration := 300, emphasis_level := "moderate" }),
    ("depressed",
     { style := "empathetic", rate := 0.95, pitch := "-1%", volume := "medium",
       pause_duration := 300, emphasis_level := "moderate" }),
    ("angry",
     { style := "calm", rate := 0.95, pitch := "-1%", volume := "medium",
       pause_duration := 300, emphasis_level := "moderate" }),
    ("stressed",
     { style := "supportive", rate := 0.97, pitch := "-1%", volume := "medium",
       pause_duration := 300, emphasis_level := "moderate" }),
    ("fearful",
     { style := "gentle", rate := 0.97, pitch := "0%", volume := "medium",
       pause_duration := 300, emphasis_level := "moderate" }),
    ("happy",
     { style := "cheerful", rate := 1.03, pitch := "+1%", volume := "medium",
       pause_duration := 250, emphasis_level := "moderate" }),
    ("hopeful",
     { style := "friendly", rate := 1.0, pitch := "0%", volume := "medium",
       pause_duration := 300, emphasis_level := "moderate" }),
    ("neutral", neutralVoiceEntry) ]

/-- `emotion_map.get(emotion.primary_emotion.lower(), emotion_map["neutral"])`. -/
def emotionBase (e : EmotionAnalysis) : VoiceParameters :=
  (alookup emotionMap (pyLower e.primary_emotion)).getD neutralVoiceEntry

/-- `emotion_service.emotion_to_voice_parameters`.  `int(p * 1.2)` and
`int(p * 0.8)` are modelled as exact scaled integer arithmetic
(`p * 12 / 10`, `p * 8 / 10`), which agrees with the float code on
every pause value in the table. -/
def emotionToVoiceParameters (e : EmotionAnalysis) : VoiceParameters :=
  let base := emotionBase e
  if e.intensity > 0.7 then
    { base with
      rate := if base.rate < 1.0 then max 0.75 (base.rate - 0.05) else base.rate,
      pause_duration := base.pause_duration * 12 / 10 }
  else if e.intensity < 0.3 then
    { base with
      rate := min 1.0 (base.rate + 0.05),
      pause_duration := base.pause_duration * 8 / 10 }
  else
    base

/-! ## Text-to-speech (`tts_service.text_to_speech`) -/

/-- Python `int(q)` on the exact value: truncation toward zero. -/
def truncQ (q : ℚ) : Int :=
  if q < 0 then ⌈q⌉ else ⌊q⌋

/-- Python `f"{n:+d}"`. -/
def signedIntStr (n : Int) : String :=
  if 0 ≤ n then "+" ++ toString n else toString n

/-- The rate conversion in `text_to_speech`:
`rate_percent = int((rate - 1.0) * 100)` rendered as a signed
percentage, with `"+0%"` for zero. -/
def rateWire (rate : ℚ) : String :=
  let ratePercent := truncQ ((rate - 1.0) * 100)
  if ratePercent ≠ 0 then signedIntStr ratePercent ++ "%" else "+0%"

/-- `pitch.replace("%", "")` (removal of every `%`). -/
def stripPct (s : String) : String :=
  String.mk (s.data.filter (fun c => c != '%'))

/-- Digit-string value, `none` when empty or a non-digit occurs. -/
def digitsVal : List Char → Option Nat
  | [] => none
  | cs =>
    cs.foldl
      (fun acc c =>
        match acc with
        | none => none
        | some n => if c.isDigit then some (n * 10 + (c.toNat - 48)) else none)
      (some 0)

/-- Strip leading and trailing whitespace. -/
def trimChars (cs : List Char) : List Char :=
  (((cs.dropWhile Char.isWhitespace).reverse).dropWhile Char.isWhitespace).reverse

/-- Python `int(s)` on a decimal string: optional surrounding
whitespace, optional sign, digits; `none` models `ValueError`. -/
def pyParseInt (s : String) : Option Int :=
  match trimChars s.data with
  | [] => none
  | c :: cs =>
    if c = '+' then (digitsVal cs).map (fun n => (n : Int))
    else if c = '-' then (digitsVal cs).map (fun n => -(n : Int))
    else (digitsVal (c :: cs)).map (fun n => (n : Int))

/-- The rate conversion as the spec states it (for comparison with
`rateWire`): signed percentage string for `round((r - 1.0) * 100)`. -/
def specRateStr (r : ℚ) : String :=
  let n := round ((r - 1.0) * 100)
  if n ≠ 0 then signedIntStr n ++ "%" else "+0%"

/-- The pitch conversion in `text_to_speech`: parse the percentage,
multiply by 5 (1% ≈ 5Hz), render as signed Hz; any parse failure
falls back to `"+0Hz"`. -/
def pitchWire (pitch : String) : String :=
  match pyParseInt (stripPct pitch) with
  | some pv => if pv * 5 ≠ 0 then signedIntStr (pv * 5) ++ "Hz" else "+0Hz"
  | none => "+0Hz"

/-- The `volume_map` of `text_to_speech`. -/
def volumeMap : List (String × String) :=
  [("soft", "-20%"), ("medium", "+0%"), ("loud", "+20%")]

/-- The volume conversion in `text_to_speech`. -/
def volumeWire (volume : String) : String :=
  (alookup volumeMap volume).getD "+0%"

/-- The arguments handed to `edge_tts.Communicate` for one candidate
voice: the plain text (`tts_text = text`) plus the converted prosody
parameters. -/
structure TTSRequest where
  text : String
  voice : String
  rate : String
  pitch : String
  volume : String
deriving DecidableEq

/-- Request construction in the body of the per-voice loop of
`text_to_speech` (the `voice_params` are always present there: a
missing argument was replaced by `VoiceParameters()` before the
loop). -/
def mkTTSRequest (text voice : String) (vp : VoiceParameters) : TTSRequest :=
  { text := text, voice := voice, rate := rateWire vp.rate,
    pitch := pitchWire vp.pitch, volume := volumeWire vp.volume }

/-- Audio bytes (the base64 step is a bijective re-encoding and is not
modelled). -/
abbrev Audio := List Nat

/-- `str(last_error)` with `str(None) = "None"`. -/
def pyStrOpt : Option String → String
  | none => "None"
  | some e => e

/-- The error recorded for a candidate attempt, if it failed: a raised
provider error, or the zero-byte check
(`raise Exception("No audio data generated")`). -/
def attemptError (synth : String → Except String Audio) (v : String) : Option String :=
  match synth v with
  | .error e => some e
  | .ok a => if a.length = 0 then some "No audio data generated" else none

/-- The per-voice fallback loop of `text_to_speech`: try candidates in
order; a raised error or zero-byte audio records the error in
`last_error` and continues; the first non-empty audio is returned; when
the candidate list is exhausted a single aggregated error carrying
`str(last_error)` is raised. -/
def tryVoices (synth : String → Except String Audio) :
    List String → Option String → Except String Audio
  | [], lastError =>
    .error ("Error generating speech after trying all voices: " ++ pyStrOpt lastError)
  | v :: rest, _lastError =>
    match synth v with
    | .error e => tryVoices synth rest (some e)
    | .ok audio =>
      if audio.length = 0 then tryVoices synth rest (some "No audio data generated")
      else .ok audio

/-- The `voice_options` table of `text_to_speech`, with the
`["en-US-AriaNeural"]` default for unlisted languages. -/
def voiceOptions (language : String) : List String :=
  (alookup
    [ ("hi", ["hi-IN-SwaraNeural", "hi-IN-MadhurNeural"]),
      ("en", ["en-US-AriaNeural", "en-US-JennyNeural"]),
      ("es", ["es-ES-ElviraNeural", "es-MX-DaliaNeural"]),
      ("fr", ["fr-FR-DeniseNeural", "fr-CA-SylvieNeural"]),
      ("de", ["de-DE-KatjaNeural", "de-DE-ConradNeural"]),
      ("pt", ["pt-BR-FranciscaNeural", "pt-PT-RaquelNeural"]),
      ("it", ["it-IT-ElsaNeural", "it-IT-DiegoNeural"]),
      ("ja", ["ja-JP-NanamiNeural", "ja-JP-KeitaNeural"]),
      ("ko", ["ko-KR-SunHiNeural", "ko-KR-InJoonNeural"]),
      ("zh", ["zh-CN-XiaoxiaoNeural", "zh-CN-YunxiNeural"]) ]
    language).getD ["en-US-AriaNeural"]

/-- `tts_service.text_to_speech`: the provider call
(`Communicate` + `save` + file read) is the oracle `synthRaw`. -/
def textToSpeech (synthRaw : TTSRequest → Except String Audio)
    (text language : String) (voiceParams? : Option VoiceParameters) :
    Except String Audio :=
  tryVoices (fun v => synthRaw (mkTTSRequest text v (voiceParams?.getD {})))
    (voiceOptions language) none

/-! ## SSML builder (`utils/ssml_builder.SSMLBuilder`) -/

/-- Python `\w` on the ASCII range. -/
def isWordChar (c : Char) : Bool :=
  c.isAlphanum || c == '_'

/-- One regex-substitution pass, scanning left to right: `step prev s`
either matches at the current position (returning the emitted
replacement, the last original character consumed, and the rest of the
original input) or the scanner copies one character.  `fuel` bounds the
number of scanned positions (callers pass the input length + 1, enough
because every step consumes at least one character). -/
def reSub (step : Option Char → List Char → Option (List Char × Option Char × List Char)) :
    Nat → Option Char → List Char → List Char
  | 0, _, s => s
  | _ + 1, _, [] => []
  | fuel + 1, prev, c :: rest =>
    match step prev (c :: rest) with
    | some (out, newPrev, remaining) => out ++ reSub step fuel newPrev remaining
    | none => c :: reSub step fuel (some c) rest

/-- Run one substitution pass over a string. -/
def runSub (step : Option Char → List Char → Option (List Char × Option Char × List Char))
    (s : String) : String :=
  String.mk (reSub step (s.data.length + 1) none s.data)

/-- The `<break time="NNms"/>` tag. -/
def breakTag (ms : Nat) : List Char :=
  ("<break time=\"" ++ toString ms ++ "ms\"/>").data

/-- One pass of `re.sub(r'X(\s+)', 'X<break .../>\1', text)` for a
punctuation character `X`: insert the tag between the character and the
following whitespace run. -/
def punctStep (trigger : Char) (tag : List Char) :
    Option Char → List Char → Option (List Char × Option Char × List Char) :=
  fun _ s =>
    match s with
    | [] => none
    | c :: rest =>
      if c = trigger && rest.head?.any Char.isWhitespace then
        some (c :: (tag ++ rest.takeWhile Char.isWhitespace),
          (rest.takeWhile Char.isWhitespace).getLast?,
          rest.dropWhile Char.isWhitespace)
      else none

/-- Case-insensitive match of the lower-case pattern `kw` against a
prefix of `s`; returns the original matched prefix and the rest. -/
def ciMatch (kw : List Char) (s : List Char) : Option (List Char × List Char) :=
  match kw, s with
  | [], rest => some ([], rest)
  | _ :: _, [] => none
  | k :: ks, c :: cs =>
    if c.toLower = k then (ciMatch ks cs).map (fun p => (c :: p.1, p.2)) else none

/-- `\b` holds before the match: start of input or a non-word character. -/
def boundaryBefore (prev : Option Char) : Bool :=
  match prev with
  | none => true
  | some c => !(isWordChar c)

/-- One pass of `re.sub(rf'\b{word}\b(\s+)', f'{word}<break .../>\1',
text, flags=re.IGNORECASE)`: the replacement uses the lower-case `word`
from the list and keeps the whitespace run. -/
def wordPauseStep (word : List Char) (tag : List Char) :
    Option Char → List Char → Option (List Char × Option Char × List Char) :=
  fun prev s =>
    if boundaryBefore prev then
      match ciMatch word s with
      | some (_, rest) =>
        if rest.head?.any Char.isWhitespace then
          some (word ++ tag ++ rest.takeWhile Char.isWhitespace,
            (rest.takeWhile Char.isWhitespace).getLast?,
            rest.dropWhile Char.isWhitespace)
        else none
      | none => none
    else none

/-- One pass of `re.sub(rf'\b({keyword})\b',
f'<emphasis level="...">\1</emphasis>', text, flags=re.IGNORECASE)`:
the replacement wraps the original matched text. -/
def emphasisStep (kw : List Char) (wrapL wrapR : List Char) :
    Option Char → List Char → Option (List Char × Option Char × List Char) :=
  fun prev s =>
    if boundaryBefore prev then
      match ciMatch kw s with
      | some (orig, rest) =>
        if (match rest.head? with | none => true | some c => !(isWordChar c)) then
          some (wrapL ++ orig ++ wrapR, orig.getLast?, rest)
        else none
      | none => none
    else none

/-- `SSMLBuilder.PAUSE_AFTER`. -/
def pauseAfter : List String :=
  ["however", "but", "and", "also", "additionally", "furthermore"]

/-- `SSMLBuilder.EMPHASIS_KEYWORDS`, flattened in dict order as
`_add_emphasis` does. -/
def emphasisKeywords : List String :=
  [ "understand", "here for you", "support", "help", "listen", "care",
    "valid", "normal", "okay", "natural", "common", "understandable",
    "feel", "difficult", "challenging", "hard", "tough", "struggle",
    "better", "improve", "progress", "hope", "positive", "forward" ]

/-- `SSMLBuilder._add_natural_pauses`: sequential substitution passes
for sentence punctuation, commas (`int(base * 0.6)`, modelled as exact
`base * 6 / 10`), and the pause words (`int(base * 0.5)` as
`base * 5 / 10`). -/
def addNaturalPauses (text : String) (basePauseMs : Nat) : String :=
  let t1 := runSub (punctStep '.' (breakTag basePauseMs)) text
  let t2 := runSub (punctStep '!' (breakTag basePauseMs)) t1
  let t3 := runSub (punctStep '?' (breakTag basePauseMs)) t2
  let t4 := runSub (punctStep ',' (breakTag (basePauseMs * 6 / 10))) t3
  pauseAfter.foldl
    (fun acc w => runSub (wordPauseStep w.data (breakTag (basePauseMs * 5 / 10))) acc) t4

/-- `SSMLBuilder._add_emphasis`. -/
def addEmphasis (text : String) (emphasisLevel : String) : String :=
  if emphasisLevel = "reduced" then text
  else
    emphasisKeywords.foldl
      (fun acc kw =>
        runSub
          (emphasisStep kw.data ("<emphasis level=\"" ++ emphasisLevel ++ "\">").data
            ("</emphasis>").data)
          acc)
      text

/-- Replace every occurrence of the character `c` by `r` (each of the
`str.replace` calls in `escape_ssml` has a single-character pattern). -/
def replaceChar (c : Char) (r : List Char) (s : List Char) : List Char :=
  (s.map (fun x => if x = c then r else [x])).flatten

/-- `SSMLBuilder.escape_ssml`. -/
def escapeSSML (text : String) : String :=
  let t1 := replaceChar '&' ("&amp;").data text.data
  let t2 := replaceChar '<' ("&lt;").data t1
  let t3 := replaceChar '>' ("&gt;").data t2
  let t4 := replaceChar '"' ("&quot;").data t3
  let t5 := replaceChar (Char.ofNat 39) ("&apos;").data t4
  String.mk t5

/-- `SSMLBuilder._voice_supports_styles`. -/
def voiceSupportsStyles (voiceName : String) : Bool :=
  [ "en-US-AriaNeural", "en-US-JennyNeural", "en-US-GuyNeural",
    "en-GB-SoniaNeural", "zh-CN-XiaoxiaoNeural", "zh-CN-YunxiNeural" ].contains voiceName

/-- `SSMLBuilder._get_xml_lang`. -/
def getXmlLang (languageCode : String) : String :=
  (alookup
    [ ("en", "en-US"), ("hi", "hi-IN"), ("es", "es-ES"), ("fr", "fr-FR"),
      ("de", "de-DE"), ("pt", "pt-BR"), ("it", "it-IT"), ("ja", "ja-JP"),
      ("ko", "ko-KR"), ("zh", "zh-CN") ]
    languageCode).getD "en-US"

/-- Python `repr` of the non-negative rate floats used by the builder
(all denominators divide 100). -/
def pyFloatRepr (q : ℚ) : String :=
  let h := (⌊q * 100⌋).toNat
  let whole := h / 100
  let frac := h % 100
  if frac = 0 then toString whole ++ ".0"
  else if frac % 10 = 0 then toString whole ++ "." ++ toString (frac / 10)
  else toString whole ++ "." ++ (if frac < 10 then "0" else "") ++ toString frac

/-- The `style_map` of `_build_with_style`. -/
def styleMap : List (String × String) :=
  [ ("empathetic", "empathetic"), ("gentle", "gentle"), ("cheerful", "cheerful"),
    ("calm", "calm"), ("supportive", "friendly"), ("friendly", "friendly") ]

/-- `edge_style` as computed by `_build_with_style` (the value is not
interpolated into the produced document). -/
def edgeStyle (style : String) : String :=
  (alookup styleMap style).getD "friendly"

/-- The document template shared by `_build_with_style` and
`_build_with_prosody` (their f-strings are identical: the style branch
computes `edge_style` but does not use it). -/
def prosodyDoc (text voiceName : String) (vp : VoiceParameters) (language : String) : String :=
  "<speak version=\"1.0\" xmlns=\"http://www.w3.org/2001/10/synthesis\" xml:lang=\""
    ++ getXmlLang language ++ "\">\n<voice name=\"" ++ voiceName
    ++ "\">\n<prosody rate=\"" ++ pyFloatRepr vp.rate ++ "\" pitch=\"" ++ vp.pitch
    ++ "\" volume=\"" ++ vp.volume ++ "\">\n" ++ text ++ "\n</prosody>\n</voice>\n</speak>"

/-- `SSMLBuilder.build_ssml`. -/
def buildSSML (text voiceName : String) (vp : VoiceParameters) (language : String) : String :=
  let escaped := escapeSSML text
  let processed := addEmphasis (addNaturalPauses escaped vp.pause_duration) vp.emphasis_level
  if voiceSupportsStyles voiceName then prosodyDoc processed voiceName vp language
  else prosodyDoc processed voiceName vp language

end VoiceBot

namespace VoiceBot

/-! ## Association-list lemmas -/

theorem alookup_aset_self {α : Type} (st : List (String × α)) (k : String) (v : α) :
    alookup (aset st k v) k = some v := by
  induction st with
  | nil => simp [aset, alookup]
  | cons p rest ih =>
    obtain ⟨k', v'⟩ := p
    by_cases h : k' = k
    · simp [aset, alookup, h]
    · simp [aset, alookup, h, ih]

theorem alookup_some_of_aset {α : Type} (st : List (String × α)) (k : String) (v : α)
    (key : String) (h : (alookup st key).isSome) :
    (alookup (aset st k v) key).isSome := by
  induction st with
  | nil => simp [alookup] at h
  | cons p rest ih =>
    obtain ⟨k', v'⟩ := p
    by_cases hk : k' = k
    · subst hk
      by_cases hkey : k' = key
      · simp [aset, alookup, hkey]
      · simp [alookup, hkey] at h
        simp [aset, alookup, hkey, h]
    · by_cases hkey : k' = key
      · subst hkey
        simp [aset, alookup, hk]
      · simp [alookup, hkey] at h
        simp [aset, alookup, hk, hkey, ih h]

/-- C1: the code contradicts its own `# Hindi (Devanagari)` comment.
Evaluated at the failing input — a message equal to the list's first
Hindi entry, so the message contains a listed keyword verbatim — the
keyword stage finds nothing (the entry's capital Cyrillic letters
cannot survive `text.lower()`) and the LLM stage IS invoked, against
the claimed short-circuit; genuine Devanagari text matches nothing
either, while an intact English entry still short-circuits with no
model call. -/
theorem mojibake_keywords_cannot_match :
    ("рдЖрддреНрдорд╣рддреНрдпрд╛" ∈ crisisKeywords) ∧
    pyIn "рдЖрддреНрдорд╣рддреНрдпрд╛" "рдЖрддреНрдорд╣рддреНрдпрд╛" = true ∧
    detectCrisis (fun _ => some false) "рдЖрддреНрдорд╣рддреНрдпрд╛" = (false, true) ∧
    detectCrisis (fun _ => some false) "मैं आत्महत्या करना चाहता हूँ" = (false, true) ∧
    detectCrisis (fun _ => some false) "I want to DIE" = (true, false) :=
  ⟨by decide, by decide, by decide, by decide, by decide⟩

/-! ## History-cap lemmas -/

theorem addHist_eq_lastN (h : List Turn) (t : Turn) :
    addHist h t = lastN 20 (h ++ [t]) := by
  unfold addHist lastN
  split
  · rfl
  · next hle =>
    have h0 : (h ++ [t]).length - 20 = 0 := by
      simp only [List.length_append, List.length_singleton] at hle ⊢
      omega
    rw [h0, List.drop_zero]

theorem lastN_of_length_le {α : Type} (n : Nat) (l : List α) (h : l.length ≤ n) :
    lastN n l = l := by
  unfold lastN
  have h0 : l.length - n = 0 := by omega
  simp [h0]

theorem lastN_append_one {α : Type} (l : List α) (x : α) :
    lastN 20 (lastN 20 l ++ [x]) = lastN 20 (l ++ [x]) := by
  by_cases hl : l.length ≤ 20
  · rw [lastN_of_length_le 20 l hl]
  · unfold lastN
    have hdl : (l.drop (l.length - 20)).length = 20 := by
      simp only [List.length_drop]
      omega
    rw [List.length_append, List.length_append, hdl]
    simp only [List.length_singleton]
    have h1 : (20 : Nat) + 1 - 20 = 1 := by omega
    rw [h1]
    rw [List.drop_append_of_le_length (by omega : 1 ≤ (l.drop (l.length - 20)).length)]
    rw [List.drop_drop]
    rw [List.drop_append_of_le_length (by omega : l.length + 1 - 20 ≤ l.length)]
    have h2 : l.length - 20 + 1 = l.length + 1 - 20 := by omega
    rw [h2]

theorem addHist_twice (h : List Turn) (u a : Turn) :
    addHist (addHist h u) a = lastN 20 (h ++ [u, a]) := by
  rw [addHist_eq_lastN, addHist_eq_lastN, lastN_append_one, List.append_assoc]
  rfl

theorem addHist_length_le (h : List Turn) (t : Turn) (hl : h.length ≤ 20) :
    (addHist h t).length ≤ 20 := by
  unfold addHist
  split
  · simp only [List.length_drop]
    omega
  · next hle =>
    simp only [List.length_append, List.length_singleton] at *
    omega

theorem addHist_twice_exact (h : List Turn) (u a : Turn) (hl : h.length ≤ 18) :
    addHist (addHist h u) a = h ++ [u, a] := by
  rw [addHist_twice]
  exact lastN_of_length_le _ _ (by simp; omega)

/-! ## Session-operation lemmas -/

theorem resolveSession_known (st : Store) (sid freshId : String)
    (hsid : sid ≠ "") (h : (alookup st sid).isSome) :
    resolveSession st (some sid) freshId = (sid, st) := by
  unfold resolveSession
  have h1 : (sid == "") = false := beq_eq_false_iff_ne.mpr hsid
  have h2 : (alookup st sid).isNone = false := by
    cases hx : alookup st sid with
    | some s => rfl
    | none => rw [hx] at h; simp at h
  simp [h1, h2]

theorem resolveSession_unknown (st : Store) (sid freshId : String)
    (h : alookup st sid = none) :
    resolveSession st (some sid) freshId = (freshId, createSession st freshId) := by
  unfold resolveSession
  simp [h]

theorem updateSessionLanguage_lookup (st : Store) (sid lang : String) (s : Session)
    (h : alookup st sid = some s) :
    updateSessionLanguage st sid lang = aset st sid { s with language := lang } := by
  unfold updateSessionLanguage
  rw [h]

theorem setCrisisFlag_lookup (st : Store) (sid : String) (s : Session)
    (h : alookup st sid = some s) :
    setCrisisFlag st sid = aset st sid { s with crisis_detected := true } := by
  unfold setCrisisFlag
  rw [h]

theorem addToConversationHistory_lookup (st : Store) (sid role content : String) (s : Session)
    (h : alookup st sid = some s) :
    addToConversationHistory st sid role content =
      aset st sid
        { s with conversation_history := addHist s.conversation_history ⟨role, content⟩ } := by
  unfold addToConversationHistory
  rw [h]

/-- C2: the crisis flag is sticky: if the session already has
`crisis_detected = true`, then after any `process_message` call on that
session (any detector verdict, so in particular a benign message) the
flag is still true; and neither the language update nor the history
append — the only other session mutations short of deletion — can reset
it. -/
theorem crisis_flag_sticky
    (detect : String → Bool) (crisisResp : String → String)
    (gen : String → List Turn → String → String)
    (freshId message language sid : String) (st : Store) (s : Session)
    (hsid : sid ≠ "") (hs : alookup st sid = some s) (hc : s.crisis_detected = true) :
    (∀ s', alookup
        (processMessage detect crisisResp gen freshId st message (some sid) language).1 sid
        = some s' → s'.crisis_detected = true) ∧
    (∀ lang' s', alookup (updateSessionLanguage st sid lang') sid = some s' →
      s'.crisis_detected = true) ∧
    (∀ role content s', alookup (addToConversationHistory st sid role content) sid = some s' →
      s'.crisis_detected = true) := by
  refine ⟨?_, ?_, ?_⟩
  · intro s' hpost
    have hres : resolveSession st (some sid) freshId = (sid, st) :=
      resolveSession_known st sid freshId hsid (by rw [hs]; rfl)
    have e1 : updateSessionLanguage st sid language =
        aset st sid { s with language := language } :=
      updateSessionLanguage_lookup st sid language s hs
    simp only [processMessage, hres, e1] at hpost
    have l1 : alookup (aset st sid { s with language := language }) sid
        = some { s with language := language } := alookup_aset_self _ _ _
    by_cases hd : detect message = true
    · rw [if_pos hd, if_pos hd] at hpost
      rw [setCrisisFlag_lookup _ _ _ l1] at hpost
      rw [addToConversationHistory_lookup _ _ _ _ _ (alookup_aset_self _ _ _)] at hpost
      rw [addToConversationHistory_lookup _ _ _ _ _ (alookup_aset_self _ _ _)] at hpost
      rw [alookup_aset_self] at hpost
      injection hpost with h
      rw [← h]
    · rw [if_neg hd, if_neg hd] at hpost
      rw [addToConversationHistory_lookup _ _ _ _ _ l1] at hpost
      rw [addToConversationHistory_lookup _ _ _ _ _ (alookup_aset_self _ _ _)] at hpost
      rw [alookup_aset_self] at hpost
      injection hpost with h
      rw [← h]
      exact hc
  · intro lang' s' hpost
    rw [updateSessionLanguage_lookup _ _ _ _ hs, alookup_aset_self] at hpost
    injection hpost with h
    rw [← h]
    exact hc
  · intro role content s' hpost
    rw [addToConversationHistory_lookup _ _ _ _ _ hs, alookup_aset_self] at hpost
    injection hpost with h
    rw [← h]
    exact hc

/-- Witness for C2: session "s1" is flagged, a benign message is
processed, and the flag is still true afterwards. -/
theorem crisis_flag_sticky_witness :
    ((("s1" : String) ≠ "") ∧
      alookup [("s1", (⟨"s1", "en", [], true⟩ : Session))] "s1" = some ⟨"s1", "en", [], true⟩ ∧
      (⟨"s1", "en", [], true⟩ : Session).crisis_detected = true) ∧
    (⟨"s1", "en", [⟨"user", "hi"⟩, ⟨"assistant", "r"⟩], true⟩ : Session).crisis_detected = true :=
  ⟨⟨by decide, by decide, rfl⟩,
    (crisis_flag_sticky (fun _ => false) (fun _ => "c") (fun _ _ _ => "r") "f" "hi" "en" "s1"
      [("s1", ⟨"s1", "en", [], true⟩)] ⟨"s1", "en", [], true⟩ (by decide) (by decide) rfl).1
      ⟨"s1", "en", [⟨"user", "hi"⟩, ⟨"assistant", "r"⟩], true⟩ (by decide)⟩

/-- C3: one `process_message` call on an existing session (in either
branch) appends the user turn then the assistant turn, truncating
FIFO to the last 20; the history length stays ≤ 20; and below 19
stored turns the two turns are appended with nothing discarded. -/
theorem history_two_turns_capped
    (detect : String → Bool) (crisisResp : String → String)
    (gen : String → List Turn → String → String)
    (freshId message language sid : String) (st : Store) (s : Session)
    (hsid : sid ≠ "") (hs : alookup st sid = some s)
    (hlen : s.conversation_history.length ≤ 20) :
    ∃ s', alookup
        (processMessage detect crisisResp gen freshId st message (some sid) language).1 sid
        = some s' ∧
      s'.conversation_history =
        lastN 20 (s.conversation_history ++
          [⟨"user", message⟩,
           ⟨"assistant",
            (processMessage detect crisisResp gen freshId st message (some sid) language).2.response⟩]) ∧
      s'.conversation_history.length ≤ 20 ∧
      (s.conversation_history.length ≤ 18 →
        s'.conversation_history =
          s.conversation_history ++
            [⟨"user", message⟩,
             ⟨"assistant",
              (processMessage detect crisisResp gen freshId st message (some sid) language).2.response⟩]) := by
  have hres : resolveSession st (some sid) freshId = (sid, st) :=
    resolveSession_known st sid freshId hsid (by rw [hs]; rfl)
  have e1 : updateSessionLanguage st sid language = aset st sid { s with language := language } :=
    updateSessionLanguage_lookup st sid language s hs
  simp only [processMessage, hres, e1]
  have l1 : alookup (aset st sid { s with language := language }) sid
      = some { s with language := language } := alookup_aset_self _ _ _
  by_cases hd : detect message = true
  · rw [if_pos hd, if_pos hd]
    rw [setCrisisFlag_lookup _ _ _ l1]
    rw [addToConversationHistory_lookup _ _ _ _ _ (alookup_aset_self _ _ _)]
    rw [addToConversationHistory_lookup _ _ _ _ _ (alookup_aset_self _ _ _)]
    refine ⟨_, alookup_aset_self _ _ _, ?_, ?_, ?_⟩
    · exact addHist_twice _ _ _
    · exact addHist_length_le _ _ (addHist_length_le _ _ hlen)
    · intro h18
      exact addHist_twice_exact _ _ _ h18
  · rw [if_neg hd, if_neg hd]
    rw [addToConversationHistory_lookup _ _ _ _ _ l1]
    rw [addToConversationHistory_lookup _ _ _ _ _ (alookup_aset_self _ _ _)]
    refine ⟨_, alookup_aset_self _ _ _, ?_, ?_, ?_⟩
    · exact addHist_twice _ _ _
    · exact addHist_length_le _ _ (addHist_length_le _ _ hlen)
    · intro h18
      exact addHist_twice_exact _ _ _ h18

/-- Witness for C3: a session with one stored turn gets exactly the
user and assistant turns appended. -/
theorem history_two_turns_capped_witness :
    ((("s1" : String) ≠ "") ∧
      alookup [("s1", (⟨"s1", "en", [⟨"user", "old"⟩], false⟩ : Session))] "s1"
        = some ⟨"s1", "en", [⟨"user", "old"⟩], false⟩ ∧
      (1 : Nat) ≤ 20) ∧
    (∃ s', alookup
        (processMessage (fun _ => false) (fun _ => "c") (fun _ _ _ => "r") "f"
          [("s1", ⟨"s1", "en", [⟨"user", "old"⟩], false⟩)] "hi" (some "s1") "en").1 "s1"
        = some s' ∧
      s'.conversation_history =
        lastN 20 ([⟨"user", "old"⟩] ++
          [⟨"user", "hi"⟩,
           ⟨"assistant",
            (processMessage (fun _ => false) (fun _ => "c") (fun _ _ _ => "r") "f"
              [("s1", ⟨"s1", "en", [⟨"user", "old"⟩], false⟩)] "hi" (some "s1") "en").2.response⟩]) ∧
      s'.conversation_history.length ≤ 20 ∧
      ((1 : Nat) ≤ 18 →
        s'.conversation_history =
          [⟨"user", "old"⟩] ++
            [⟨"user", "hi"⟩,
             ⟨"assistant",
              (processMessage (fun _ => false) (fun _ => "c") (fun _ _ _ => "r") "f"
                [("s1", ⟨"s1", "en", [⟨"user", "old"⟩], false⟩)] "hi" (some "s1") "en").2.response⟩])) :=
  ⟨⟨by decide, by decide, by decide⟩,
    history_two_turns_capped (fun _ => false) (fun _ => "c") (fun _ _ _ => "r") "f" "hi" "en" "s1"
      [("s1", ⟨"s1", "en", [⟨"user", "old"⟩], false⟩)] ⟨"s1", "en", [⟨"user", "old"⟩], false⟩
      (by decide) (by decide) (by decide)⟩

/-- C7 counterexample: with an empty session store, supplying the unseen
session id "s1" makes `process_message` create and return the freshly
generated id, not "s1"; no session is stored under "s1". -/
theorem supplied_id_not_reused :
    (processMessage (fun _ => false) (fun _ => "c") (fun _ _ _ => "r") "session_42"
        [] "hello" (some "s1") "en").2.session_id = "session_42" ∧
    ("session_42" : String) ≠ "s1" ∧
    alookup (processMessage (fun _ => false) (fun _ => "c") (fun _ _ _ => "r") "session_42"
        [] "hello" (some "s1") "en").1 "s1" = none :=
  ⟨by decide, by decide, by decide⟩

/-- C7 (amended): for an unseen supplied session id, a session is
created lazily under the freshly generated id, and the returned
`session_id` is that generated id. -/
theorem lazy_creation_under_fresh_id
    (detect : String → Bool) (crisisResp : String → String)
    (gen : String → List Turn → String → String)
    (freshId message language sid : String) (st : Store)
    (h : alookup st sid = none) :
    (processMessage detect crisisResp gen freshId st message (some sid) language).2.session_id
      = freshId ∧
    (alookup
        (processMessage detect crisisResp gen freshId st message (some sid) language).1
        freshId).isSome = true := by
  have hres : resolveSession st (some sid) freshId = (freshId, createSession st freshId) :=
    resolveSession_unknown st sid freshId h
  have hcreate : createSession st freshId =
      aset st freshId { id := freshId, language := "en", conversation_history := [],
                        crisis_detected := false } := rfl
  have e1 : updateSessionLanguage (createSession st freshId) freshId language =
      aset (createSession st freshId) freshId
        { id := freshId, language := language, conversation_history := [],
          crisis_detected := false } := by
    rw [hcreate]
    exact updateSessionLanguage_lookup _ _ _ _ (alookup_aset_self _ _ _)
  constructor
  · simp only [processMessage, hres]
  · simp only [processMessage, hres, e1]
    by_cases hd : detect message = true
    · rw [if_pos hd]
      rw [setCrisisFlag_lookup _ _ _ (alookup_aset_self _ _ _)]
      rw [addToConversationHistory_lookup _ _ _ _ _ (alookup_aset_self _ _ _)]
      rw [addToConversationHistory_lookup _ _ _ _ _ (alookup_aset_self _ _ _)]
      rw [alookup_aset_self]
      rfl
    · rw [if_neg hd]
      rw [addToConversationHistory_lookup _ _ _ _ _ (alookup_aset_self _ _ _)]
      rw [addToConversationHistory_lookup _ _ _ _ _ (alookup_aset_self _ _ _)]
      rw [alookup_aset_self]
      rfl

/-- Witness for the amended C7 at a concrete unseen id. -/
theorem lazy_creation_under_fresh_id_witness :
    alookup ([] : Store) "s1" = none ∧
    ((processMessage (fun _ => true) (fun _ => "c") (fun _ _ _ => "r") "session_42"
        [] "help" (some "s1") "en").2.session_id = "session_42" ∧
      (alookup (processMessage (fun _ => true) (fun _ => "c") (fun _ _ _ => "r") "session_42"
          [] "help" (some "s1") "en").1 "session_42").isSome = true) :=
  ⟨rfl,
    lazy_creation_under_fresh_id (fun _ => true) (fun _ => "c") (fun _ _ _ => "r")
      "session_42" "help" "en" "s1" [] rfl⟩

/-- C6: the emotion-to-voice mapping is the table lookup by lower-cased
primary emotion (neutral fallback), adjusted by intensity exactly as the
code does: high intensity slows sub-1.0 rates (floor 0.75) and scales
pauses by 1.2; low intensity moves the rate up (cap 1.0) and scales
pauses by 0.8; mid intensity returns the base unmodified. -/
theorem emotion_to_voice_mapping (e : EmotionAnalysis) :
    (0.7 < e.intensity → (emotionBase e).rate < 1.0 →
      emotionToVoiceParameters e =
        { emotionBase e with
          rate := max 0.75 ((emotionBase e).rate - 0.05),
          pause_duration := (emotionBase e).pause_duration * 12 / 10 }) ∧
    (0.7 < e.intensity → ¬(emotionBase e).rate < 1.0 →
      emotionToVoiceParameters e =
        { emotionBase e with
          pause_duration := (emotionBase e).pause_duration * 12 / 10 }) ∧
    (e.intensity < 0.3 →
      emotionToVoiceParameters e =
        { emotionBase e with
          rate := min 1.0 ((emotionBase e).rate + 0.05),
          pause_duration := (emotionBase e).pause_duration * 8 / 10 }) ∧
    (0.3 ≤ e.intensity → e.intensity ≤ 0.7 → emotionToVoiceParameters e = emotionBase e) ∧
    (alookup emotionMap (pyLower e.primary_emotion) = none →
      emotionBase e = neutralVoiceEntry) := by
  refine ⟨?_, ?_, ?_, ?_, ?_⟩
  · intro h1 h2
    simp only [emotionToVoiceParameters]
    rw [if_pos h1, if_pos h2]
  · intro h1 h2
    simp only [emotionToVoiceParameters]
    rw [if_pos h1, if_neg h2]
  · intro h3
    simp only [emotionToVoiceParameters]
    rw [if_neg (by linarith : ¬e.intensity > 0.7), if_pos h3]
  · intro h1 h2
    simp only [emotionToVoiceParameters]
    rw [if_neg (by linarith : ¬e.intensity > 0.7), if_neg (by linarith : ¬e.intensity < 0.3)]
  · intro h
    unfold emotionBase
    rw [h]
    rfl

/-- Witness for C6 on the three intensity regimes: "sad" at 0.8,
"HAPPY" at 0.2 (tests lower-casing), and an unknown emotion at 0.5
(tests the neutral fallback). -/
theorem emotion_to_voice_mapping_witness :
    ((0.7 : ℚ) < 0.8 ∧
      (emotionBase ⟨"sad", 0.8, none, 0.9, "empathetic", "slow", [], 0⟩).rate < 1.0 ∧
      emotionToVoiceParameters ⟨"sad", 0.8, none, 0.9, "empathetic", "slow", [], 0⟩ =
        ⟨"empathetic", 0.92, "-1%", "medium", 360, "moderate"⟩) ∧
    ((0.2 : ℚ) < 0.3 ∧
      emotionToVoiceParameters ⟨"HAPPY", 0.2, none, 0.9, "cheerful", "fast", [], 0⟩ =
        ⟨"cheerful", 1.0, "+1%", "medium", 200, "moderate"⟩) ∧
    ((0.3 : ℚ) ≤ 0.5 ∧ (0.5 : ℚ) ≤ 0.7 ∧
      emotionToVoiceParameters ⟨"perplexed", 0.5, none, 0.5, "friendly", "normal", [], 0⟩ =
        neutralVoiceEntry) := by
  have hbs : emotionBase ⟨"sad", 0.8, none, 0.9, "empathetic", "slow", [], 0⟩ =
      ⟨"empathetic", 0.97, "-1%", "medium", 300, "moderate"⟩ := rfl
  have hbh : emotionBase ⟨"HAPPY", 0.2, none, 0.9, "cheerful", "fast", [], 0⟩ =
      ⟨"cheerful", 1.03, "+1%", "medium", 250, "moderate"⟩ := rfl
  have hrs : (emotionBase ⟨"sad", 0.8, none, 0.9, "empathetic", "slow", [], 0⟩).rate < 1.0 := by
    rw [hbs]
    norm_num
  refine ⟨⟨by norm_num, hrs, ?_⟩, ⟨by norm_num, ?_⟩, ⟨by norm_num, by norm_num, ?_⟩⟩
  · have h := (emotion_to_voice_mapping ⟨"sad", 0.8, none, 0.9, "empathetic", "slow", [], 0⟩).1
      (by norm_num) hrs
    rw [hbs] at h
    rw [h]
    simp only [VoiceParameters.mk.injEq]
    norm_num
  · have h := (emotion_to_voice_mapping
      ⟨"HAPPY", 0.2, none, 0.9, "cheerful", "fast", [], 0⟩).2.2.1 (by norm_num)
    rw [hbh] at h
    rw [h]
    simp only [VoiceParameters.mk.injEq]
    norm_num
  · have h := (emotion_to_voice_mapping
      ⟨"perplexed", 0.5, none, 0.5, "friendly", "normal", [], 0⟩).2.2.2.1
      (by norm_num) (by norm_num)
    rw [h]
    rfl

/-- C8 counterexample: if the first analysis of "hello" fails (no
parseable model reply), nothing is cached, and the second call with the
byte-identical text invokes the model stage again — so the claimed
unconditional idempotence fails. -/
theorem second_analysis_can_invoke_model :
    (analyzeEmotion (fun _ => none)
      (analyzeEmotion (fun _ => none) [] "hello" true).cache "hello" true).modelCalled = true :=
  rfl

/-- C8 (amended): when the model analysis of the message succeeds, the
profile is cached, and a second call with byte-identical text is served
from the cache with no second model call. -/
theorem emotion_cache_idempotent
    (model : String → Option EmotionAnalysis) (cache : EmotionCache)
    (msg : String) (ea : EmotionAnalysis) (h : model msg = some ea) :
    (analyzeEmotion model (analyzeEmotion model cache msg true).cache msg true).modelCalled
      = false ∧
    (analyzeEmotion model (analyzeEmotion model cache msg true).cache msg true).result =
      (analyzeEmotion model cache msg true).result ∧
    alookup (analyzeEmotion model cache msg true).cache msg =
      some (analyzeEmotion model cache msg true).result := by
  cases hc : alookup cache msg with
  | some cached =>
    simp [analyzeEmotion, hc]
  | none =>
    simp [analyzeEmotion, hc, h, alookup_aset_self]

/-- Witness for the amended C8 with a model that parses successfully. -/
theorem emotion_cache_idempotent_witness :
    ((fun _ => some neutralEmotion) "hello" = some neutralEmotion) ∧
    ((analyzeEmotion (fun _ => some neutralEmotion)
        (analyzeEmotion (fun _ => some neutralEmotion) [] "hello" true).cache "hello"
        true).modelCalled = false ∧
      (analyzeEmotion (fun _ => some neutralEmotion)
        (analyzeEmotion (fun _ => some neutralEmotion) [] "hello" true).cache "hello"
        true).result = (analyzeEmotion (fun _ => some neutralEmotion) [] "hello" true).result ∧
      alookup (analyzeEmotion (fun _ => some neutralEmotion) [] "hello" true).cache "hello" =
        some (analyzeEmotion (fun _ => some neutralEmotion) [] "hello" true).result) :=
  ⟨rfl, emotion_cache_idempotent (fun _ => some neutralEmotion) [] "hello" neutralEmotion rfl⟩

/-- C10: a failed emotion analysis returns the neutral fallback but is
not cached, so a repeat call with the same text performs a fresh model
call. -/
theorem failed_analysis_not_cached
    (model : String → Option EmotionAnalysis) (cache : EmotionCache) (msg : String)
    (hmiss : alookup cache msg = none) (hfail : model msg = none) :
    (analyzeEmotion model cache msg true).result = neutralEmotion ∧
    (analyzeEmotion model cache msg true).cache = cache ∧
    (analyzeEmotion model (analyzeEmotion model cache msg true).cache msg true).modelCalled
      = true := by
  simp [analyzeEmotion, hmiss, hfail]

/-- Witness for C10 with an always-failing model. -/
theorem failed_analysis_not_cached_witness :
    alookup ([] : EmotionCache) "hello" = none ∧
    ((fun _ => (none : Option EmotionAnalysis)) "hello" = none) ∧
    ((analyzeEmotion (fun _ => none) [] "hello" true).result = neutralEmotion ∧
      (analyzeEmotion (fun _ => none) [] "hello" true).cache = [] ∧
      (analyzeEmotion (fun _ => none)
        (analyzeEmotion (fun _ => none) [] "hello" true).cache "hello" true).modelCalled
          = true) :=
  ⟨rfl, rfl, failed_analysis_not_cached (fun _ => none) [] "hello" rfl rfl⟩

/-- C5: voice-fallback semantics of the `text_to_speech` loop: the first
candidate yielding non-empty audio is returned immediately; a raised
error or zero-byte output records the failure and moves to the next
candidate in list order; if every candidate fails, a single aggregated
error carrying the last candidate's recorded error is raised. -/
theorem tts_fallback_order :
    (∀ (synth : String → Except String Audio) (v : String) (rest : List String)
        (le : Option String) (a : Audio),
      synth v = Except.ok a → a.length ≠ 0 →
      tryVoices synth (v :: rest) le = Except.ok a) ∧
    (∀ (synth : String → Except String Audio) (v : String) (rest : List String)
        (le : Option String) (e : String),
      synth v = Except.error e →
      tryVoices synth (v :: rest) le = tryVoices synth rest (some e)) ∧
    (∀ (synth : String → Except String Audio) (v : String) (rest : List String)
        (le : Option String) (a : Audio),
      synth v = Except.ok a → a.length = 0 →
      tryVoices synth (v :: rest) le =
        tryVoices synth rest (some "No audio data generated")) ∧
    (∀ (synth : String → Except String Audio) (vs : List String) (vlast : String)
        (le : Option String) (e : String),
      (∀ v ∈ vs, (attemptError synth v).isSome) →
      attemptError synth vlast = some e →
      tryVoices synth (vs ++ [vlast]) le =
        Except.error ("Error generating speech after trying all voices: " ++ e)) := by
  refine ⟨?_, ?_, ?_, ?_⟩
  · intro synth v rest le a h ha
    simp [tryVoices, h, ha]
  · intro synth v rest le e h
    simp [tryVoices, h]
  · intro synth v rest le a h ha
    simp [tryVoices, h, ha]
  · intro synth vs vlast le e hall hlast
    induction vs generalizing le with
    | nil =>
      cases hv : synth vlast with
      | error e0 =>
        have he : e0 = e := by
          simp only [attemptError, hv] at hlast
          exact Option.some.inj hlast
        subst he
        simp [tryVoices, hv, pyStrOpt]
      | ok a =>
        simp only [attemptError, hv] at hlast
        by_cases hl : a.length = 0
        · rw [if_pos hl] at hlast
          have he : "No audio data generated" = e := Option.some.inj hlast
          subst he
          simp [tryVoices, hv, hl, pyStrOpt]
        · rw [if_neg hl] at hlast
          exact absurd hlast (by simp)
    | cons v vs ih =>
      have hv1 : (attemptError synth v).isSome := hall v (by simp)
      have hall' : ∀ w ∈ vs, (attemptError synth w).isSome := by
        intro w hw
        exact hall w (by simp [hw])
      cases hsv : synth v with
      | error e0 =>
        have hstep : tryVoices synth ((v :: vs) ++ [vlast]) le =
            tryVoices synth (vs ++ [vlast]) (some e0) := by
          simp [tryVoices, hsv]
        rw [hstep]
        exact ih _ hall'
      | ok a =>
        simp only [attemptError, hsv] at hv1
        by_cases hl : a.length = 0
        · have hstep : tryVoices synth ((v :: vs) ++ [vlast]) le =
              tryVoices synth (vs ++ [vlast]) (some "No audio data generated") := by
            simp [tryVoices, hsv, hl]
          rw [hstep]
          exact ih _ hall'
        · rw [if_neg hl] at hv1
          exact absurd hv1 (by simp)

/-- Witness for C5: candidate "v1" raises and "v2" succeeds, so "v2"'s
audio is returned; with a zero-byte synthesizer every candidate fails
and the aggregated error carries the zero-byte failure message. -/
theorem tts_fallback_order_witness :
    (((fun v => if v = "v1" then Except.error "boom" else Except.ok ([7] : Audio)) "v1"
        = Except.error "boom") ∧
      tryVoices (fun v => if v = "v1" then Except.error "boom" else Except.ok ([7] : Audio))
        ["v1", "v2"] none =
        tryVoices (fun v => if v = "v1" then Except.error "boom" else Except.ok ([7] : Audio))
          ["v2"] (some "boom") ∧
      ((fun v => if v = "v1" then Except.error "boom" else Except.ok ([7] : Audio)) "v2"
        = Except.ok [7]) ∧
      tryVoices (fun v => if v = "v1" then Except.error "boom" else Except.ok ([7] : Audio))
        ["v2"] (some "boom") = Except.ok [7]) ∧
    (attemptError (fun _ => Except.ok ([] : Audio)) "b" = some "No audio data generated" ∧
      tryVoices (fun _ => Except.ok ([] : Audio)) (["a"] ++ ["b"]) none =
        Except.error ("Error generating speech after trying all voices: "
          ++ "No audio data generated")) :=
  ⟨⟨rfl,
    tts_fallback_order.2.1 _ "v1" ["v2"] none "boom" rfl,
    rfl,
    tts_fallback_order.1 _ "v2" [] (some "boom") [7] rfl (by decide)⟩,
   ⟨rfl,
    tts_fallback_order.2.2.2 _ ["a"] "b" none "No audio data generated"
      (by intro w hw; rfl) rfl⟩⟩

/-- C4 counterexample: for the reply "hello" (default voice parameters,
style-capable voice, language "en") the provider request carries the
plain reply text, which is not the markup document the Prosody Markup
Builder produces from the same inputs. -/
theorem provider_text_is_not_markup :
    (mkTTSRequest "hello" "en-US-AriaNeural" {}).text = "hello" ∧
    (mkTTSRequest "hello" "en-US-AriaNeural" {}).text ≠
      buildSSML "hello" "en-US-AriaNeural" {} "en" := by
  have hrepr : pyFloatRepr (1.0 : ℚ) = "1.0" := by
    have h100 : (⌊(1.0 : ℚ) * 100⌋ : Int) = 100 := by norm_num
    simp only [pyFloatRepr, h100]
    decide
  constructor
  · rfl
  · intro hEq
    have hEq' : ("hello" : String) = buildSSML "hello" "en-US-AriaNeural" {} "en" := hEq
    simp only [buildSSML, prosodyDoc, hrepr] at hEq'
    exact absurd hEq' (by decide)

/-- C4 (amended): the text handed to the speech provider is the plain
reply text; the emotional prosody is conveyed through the separate
rate/pitch/volume request parameters, not through markup. -/
theorem provider_receives_plain_text
    (synthRaw : TTSRequest → Except String Audio)
    (text voice language : String) (vp : VoiceParameters)
    (voiceParams? : Option VoiceParameters) :
    (mkTTSRequest text voice vp).text = text ∧
    (mkTTSRequest text voice vp).rate = rateWire vp.rate ∧
    (mkTTSRequest text voice vp).pitch = pitchWire vp.pitch ∧
    (mkTTSRequest text voice vp).volume = volumeWire vp.volume ∧
    textToSpeech synthRaw text language voiceParams? =
      tryVoices (fun v => synthRaw (mkTTSRequest text v (voiceParams?.getD {})))
        (voiceOptions language) none :=
  ⟨rfl, rfl, rfl, rfl, rfl⟩

/-- C9 counterexample: the code truncates the rate percentage toward
zero (`int(...)`), so at rate 1.016 it produces "+1%" while the spec's
rounding formula gives "+2%". -/
theorem rate_truncates_not_rounds :
    rateWire (1.016 : ℚ) = "+1%" ∧
    specRateStr (1.016 : ℚ) = "+2%" ∧
    rateWire (1.016 : ℚ) ≠ specRateStr (1.016 : ℚ) := by
  have harg : ((1.016 : ℚ) - 1.0) * 100 = 8 / 5 := by norm_num
  have ht : truncQ (((1.016 : ℚ) - 1.0) * 100) = 1 := by
    unfold truncQ
    rw [harg, if_neg (by norm_num : ¬(8 / 5 : ℚ) < 0)]
    norm_num
  have hr : round (((1.016 : ℚ) - 1.0) * 100) = 2 := by
    rw [harg, round_eq]
    norm_num
  refine ⟨?_, ?_, ?_⟩
  · simp only [rateWire, ht]
    decide
  · simp only [specRateStr, hr]
    decide
  · simp only [rateWire, specRateStr, ht, hr]
    decide

/-- C9 (amended): the wire conversion truncates the rate percentage
toward zero; the pitch percentage is multiplied by 5 into Hz; the
volume enum maps soft to -20%, medium to +0%, loud to +20%. -/
theorem wire_format_conversion (vp : VoiceParameters) :
    rateWire vp.rate =
      (if truncQ ((vp.rate - 1.0) * 100) ≠ 0
       then signedIntStr (truncQ ((vp.rate - 1.0) * 100)) ++ "%" else "+0%") ∧
    (∀ pv : Int, pyParseInt (stripPct vp.pitch) = some pv →
      pitchWire vp.pitch = (if pv * 5 ≠ 0 then signedIntStr (pv * 5) ++ "Hz" else "+0Hz")) ∧
    volumeWire "soft" = "-20%" ∧ volumeWire "medium" = "+0%" ∧ volumeWire "loud" = "+20%" := by
  refine ⟨rfl, ?_, rfl, rfl, rfl⟩
  intro pv h
  unfold pitchWire
  rw [h]

/-- Witness for the amended C9: pitch "-3%" parses to -3 and converts
to "-15Hz". -/
theorem wire_format_conversion_witness :
    pyParseInt (stripPct "-3%") = some (-3) ∧ pitchWire "-3%" = "-15Hz" := by
  constructor
  · decide
  · have h := (wire_format_conversion { pitch := "-3%" }).2.1 (-3) (by decide)
    exact h.trans (by decide)

end VoiceBot
